import Mathlib

/-!
Verification development for the auto-ingress Kubernetes operator
(`operator/operator.py`).  The Python source is shallowly embedded:

* a Service port dict becomes `Port`, whose `name` field is an `Option`
  so that a missing `name` key (Python `KeyError`) is representable;
* the pure helpers `build_ingress_name`, `find_http_port` and
  `create_ingress_object` become Lean functions (fallible dict access
  returns `Except`);
* the Kubernetes API is an oracle `Gateway` giving the outcome of each
  list/create/patch/delete call, and the two kopf handlers
  `manage_ingress` / `cleanup_ingress` return the handler outcome
  together with the ordered trace of gateway calls and the kopf events
  they emit;
* `gatewayOfState` instantiates the oracle from a concrete cluster
  state (the list of ingress names existing in the namespace), with
  create answering 409 on an existing name and delete/patch answering
  404 on an absent one.
-/

/-- `INGRESS_CLASS_ANNOTATION` from the source (renamed). -/
def INGRESS_CLASS_KEY : String := "traefik.ingress.kubernetes.io/router.entrypoints"

/-- `INGRESS_CLASS_VALUE` from the source. -/
def INGRESS_CLASS_VALUE : String := "web"

/-- `AUTO_INGRESS_ANNOTATION` from the source (renamed). -/
def AUTO_INGRESS_KEY : String := "auto-ingress"

/-- One entry of `service.spec['ports']`.  `name = none` models a port
dict with no `'name'` key; `targetPort = none` models an absent/null
`targetPort` (falsy in Python, like `0`). -/
structure Port where
  name : Option String
  port : Nat
  targetPort : Option Nat
deriving DecidableEq, Repr

/-- The part of a Service spec the operator reads. -/
structure ServiceSpec where
  ports : List Port
deriving DecidableEq, Repr

/-- `k8s_client.V1Service(**{'spec': spec})`. -/
structure V1Service where
  spec : ServiceSpec
deriving DecidableEq, Repr

/-- Python `s.startswith(pfx)`: `pfx` is a string prefix of `s`
(compared on the character lists). -/
def startswith (s pfx : String) : Bool :=
  pfx.data.isPrefixOf s.data

/-- `build_ingress_name` from the source. -/
def build_ingress_name (service_name port_name : String) : String :=
  "auto-ingress-" ++ service_name ++ "-" ++ port_name

/-- The `for port in ports:` loop of `find_http_port`: reading
`port['name']` raises `KeyError` when the key is absent; the first
port named `"http"` is returned. -/
def findHttpLoop : List Port → Except String (Option Port)
  | [] => Except.ok none
  | p :: rest =>
    match p.name with
    | none => Except.error "KeyError: name"
    | some n => if n = "http" then Except.ok (some p) else findHttpLoop rest

/-- `find_http_port` from the source: scan for a port named `"http"`,
fall back to `ports[0] if ports else None`. -/
def find_http_port (service : V1Service) : Except String (Option Port) :=
  match findHttpLoop service.spec.ports with
  | Except.error e => Except.error e
  | Except.ok (some p) => Except.ok (some p)
  | Except.ok none => Except.ok service.spec.ports.head?

/-- `k8s_client.V1OwnerReference`. -/
structure V1OwnerReference where
  api_version : String
  kind : String
  name : String
  uid : String
  controller : Bool
  block_owner_deletion : Bool
deriving DecidableEq, Repr

/-- `k8s_client.V1ServiceBackendPort`. -/
structure V1ServiceBackendPort where
  number : Nat
deriving DecidableEq, Repr

/-- `k8s_client.V1IngressServiceBackend`. -/
structure V1IngressServiceBackend where
  name : String
  port : V1ServiceBackendPort
deriving DecidableEq, Repr

/-- `k8s_client.V1IngressBackend`. -/
structure V1IngressBackend where
  service : V1IngressServiceBackend
deriving DecidableEq, Repr

/-- `k8s_client.V1HTTPIngressPath`. -/
structure V1HTTPIngressPath where
  path : String
  path_type : String
  backend : V1IngressBackend
deriving DecidableEq, Repr

/-- `k8s_client.V1HTTPIngressRuleValue`. -/
structure V1HTTPIngressRuleValue where
  paths : List V1HTTPIngressPath
deriving DecidableEq, Repr

/-- `k8s_client.V1IngressRule`. -/
structure V1IngressRule where
  http : V1HTTPIngressRuleValue
deriving DecidableEq, Repr

/-- `k8s_client.V1IngressSpec`. -/
structure V1IngressSpec where
  rules : List V1IngressRule
deriving DecidableEq, Repr

/-- `k8s_client.V1ObjectMeta` (the fields the source sets; `ns` is the
`namespace` argument, which is a reserved word in Lean). -/
structure V1ObjectMeta where
  name : String
  ns : String
  annotations : List (String × String)
  owner_references : List V1OwnerReference
deriving DecidableEq, Repr

/-- `k8s_client.V1Ingress`. -/
structure V1Ingress where
  metadata : V1ObjectMeta
  spec : V1IngressSpec
deriving DecidableEq, Repr

/-- `create_ingress_object` from the source.  `port['name']` raises
`KeyError` when the key is absent; `port['name'] or str(port['port'])`
falls back on a falsy (empty) name; the backend number is
`port['targetPort'] or port['port']` (falsy target: absent/null or 0). -/
def create_ingress_object (ns service_name path : String) (port : Port) :
    Except String V1Ingress :=
  match port.name with
  | none => Except.error "KeyError: name"
  | some pname =>
    Except.ok
      { metadata :=
          { name := build_ingress_name service_name
              (if pname = "" then toString port.port else pname)
            ns := ns
            annotations := [(INGRESS_CLASS_KEY, INGRESS_CLASS_VALUE)]
            owner_references :=
              [{ api_version := "v1"
                 kind := "Service"
                 name := service_name
                 uid := ""
                 controller := true
                 block_owner_deletion := true }] }
        spec :=
          { rules :=
              [{ http :=
                  { paths :=
                      [{ path := path
                         path_type := "Prefix"
                         backend :=
                           { service :=
                               { name := service_name
                                 port :=
                                   { number :=
                                       match port.targetPort with
                                       | some t => if t = 0 then port.port else t
                                       | none => port.port } } } }] } }] } }

/-- `ingress_obj.metadata.owner_references[0].uid = uid` (the built
object always carries exactly one owner reference). -/
def set_owner_uid (ing : V1Ingress) (uid : String) : V1Ingress :=
  { ing with metadata :=
      { ing.metadata with owner_references :=
          match ing.metadata.owner_references with
          | [] => []
          | r :: rs => { r with uid := uid } :: rs } }

/-- Oracle for the Kubernetes API: the outcome of each call the
handlers may make, `Except.error s` being an `ApiException` with HTTP
status `s`.  Listing yields the names of the ingresses in the
namespace (the handlers read nothing else from the listed items). -/
structure Gateway where
  listResult : String → Except Nat (List String)
  deleteResult : String → String → Except Nat Unit
  createResult : String → V1Ingress → Except Nat Unit
  patchResult : String → String → V1Ingress → Except Nat Unit

/-- One call made to the Kubernetes API, with its arguments. -/
inductive GatewayCall where
  | list (ns : String)
  | delete (ingName ns : String)
  | create (ns : String) (obj : V1Ingress)
  | patch (ingName ns : String) (obj : V1Ingress)
deriving DecidableEq, Repr

/-- The ingress object submitted by a call, when it carries one. -/
def gatewayCallObj : GatewayCall → Option V1Ingress
  | GatewayCall.create _ obj => some obj
  | GatewayCall.patch _ _ obj => some obj
  | _ => none

/-- A `kopf.info` event. -/
structure KopfEvent where
  reason : String
  message : String
deriving DecidableEq, Repr

/-- How a handler invocation ends: normal return, a raised
`kopf.TemporaryError` (recoverable, with delay), or an exception that
escapes the handler unhandled. -/
inductive HandlerResult where
  | ok
  | temporaryError (msg : String) (delay : Nat)
  | unhandledApiException (status : Nat)
  | unhandledKeyError (msg : String)
deriving DecidableEq, Repr

/-- The delete loop of `manage_ingress` (lines 78-81): delete every
listed ingress whose name starts with the family string, emitting a
`kopf.info` after each successful delete; the first `ApiException`
aborts the loop (it is reported by the surrounding `except`).  Returns
the calls made, the events emitted, and the aborting status if any. -/
def manageDeleteLoop (gw : Gateway) (fam ns : String) :
    List String → List GatewayCall × List KopfEvent × Option Nat
  | [] => ([], [], none)
  | ing :: rest =>
    if startswith ing fam then
      match gw.deleteResult ing ns with
      | Except.ok _ =>
        let r := manageDeleteLoop gw fam ns rest
        (GatewayCall.delete ing ns :: r.1,
         KopfEvent.mk "IngressDeleted" ("Deleted " ++ ing) :: r.2.1, r.2.2)
      | Except.error st => ([GatewayCall.delete ing ns], [], some st)
    else manageDeleteLoop gw fam ns rest

/-- The delete loop of `cleanup_ingress` (lines 115-118); same shape,
different event message, and no surrounding `except`. -/
def cleanupDeleteLoop (gw : Gateway) (fam ns : String) :
    List String → List GatewayCall × List KopfEvent × Option Nat
  | [] => ([], [], none)
  | ing :: rest =>
    if startswith ing fam then
      match gw.deleteResult ing ns with
      | Except.ok _ =>
        let r := cleanupDeleteLoop gw fam ns rest
        (GatewayCall.delete ing ns :: r.1,
         KopfEvent.mk "IngressDeleted" ("Deleted ingress " ++ ing) :: r.2.1, r.2.2)
      | Except.error st => ([GatewayCall.delete ing ns], [], some st)
    else cleanupDeleteLoop gw fam ns rest

/-- `manage_ingress` from the source (the `@kopf.on.create/update`
handler).  Dict membership `AUTO_INGRESS_ANNOTATION not in
(annotations or {})` and the later `annotations[...]` read are the
`lookup` match; the annotation-absent branch wraps list+delete in one
`except ApiException` that re-raises `kopf.TemporaryError(..., delay=10)`;
the annotation-present branch builds the ingress, stitches the uid into
its owner reference, then tries create, falling back to patch on 409,
and re-raises any other `ApiException` as a `TemporaryError` — an
`ApiException` from the fallback patch itself is uncaught. -/
def manage_ingress (gw : Gateway) (spec : ServiceSpec) (name ns uid : String)
    (annotations : Option (List (String × String))) :
    HandlerResult × List GatewayCall × List KopfEvent :=
  match (annotations.getD []).lookup AUTO_INGRESS_KEY with
  | none =>
    match gw.listResult ns with
    | Except.error st =>
      (HandlerResult.temporaryError
        ("Failed to list/delete ingress: API error " ++ toString st) 10,
       [GatewayCall.list ns], [])
    | Except.ok ingresses =>
      let r := manageDeleteLoop gw ("auto-ingress-" ++ name) ns ingresses
      match r.2.2 with
      | some st =>
        (HandlerResult.temporaryError
          ("Failed to list/delete ingress: API error " ++ toString st) 10,
         GatewayCall.list ns :: r.1, r.2.1)
      | none => (HandlerResult.ok, GatewayCall.list ns :: r.1, r.2.1)
  | some path =>
    match find_http_port (V1Service.mk spec) with
    | Except.error e => (HandlerResult.unhandledKeyError e, [], [])
    | Except.ok none =>
      (HandlerResult.temporaryError "No ports found on service" 10, [], [])
    | Except.ok (some port) =>
      match create_ingress_object ns name path port with
      | Except.error e => (HandlerResult.unhandledKeyError e, [], [])
      | Except.ok obj0 =>
        let obj := set_owner_uid obj0 uid
        match gw.createResult ns obj with
        | Except.ok _ =>
          (HandlerResult.ok, [GatewayCall.create ns obj],
           [KopfEvent.mk "IngressCreated" ("Created ingress " ++ obj.metadata.name)])
        | Except.error st =>
          if st = 409 then
            match gw.patchResult obj.metadata.name ns obj with
            | Except.ok _ =>
              (HandlerResult.ok,
               [GatewayCall.create ns obj, GatewayCall.patch obj.metadata.name ns obj],
               [KopfEvent.mk "IngressPatched" ("Updated ingress " ++ obj.metadata.name)])
            | Except.error st2 =>
              (HandlerResult.unhandledApiException st2,
               [GatewayCall.create ns obj, GatewayCall.patch obj.metadata.name ns obj],
               [])
          else
            (HandlerResult.temporaryError
              ("Failed to create/patch ingress: API error " ++ toString st) 10,
             [GatewayCall.create ns obj], [])

/-- `cleanup_ingress` from the source (the `@kopf.on.delete` handler):
list, filter by the family string, delete each; no `try/except`, so any
`ApiException` escapes the handler. -/
def cleanup_ingress (gw : Gateway) (name ns : String) :
    HandlerResult × List GatewayCall × List KopfEvent :=
  match gw.listResult ns with
  | Except.error st =>
    (HandlerResult.unhandledApiException st, [GatewayCall.list ns], [])
  | Except.ok ingresses =>
    let r := cleanupDeleteLoop gw ("auto-ingress-" ++ name) ns ingresses
    match r.2.2 with
    | some st =>
      (HandlerResult.unhandledApiException st, GatewayCall.list ns :: r.1, r.2.1)
    | none => (HandlerResult.ok, GatewayCall.list ns :: r.1, r.2.1)

/-- Gateway induced by a concrete cluster state `st` (the ingress
names existing in the namespace): create conflicts (409) on an
existing name, delete and patch answer 404 on an absent one. -/
def gatewayOfState (st : List String) : Gateway where
  listResult := fun _ => Except.ok st
  deleteResult := fun n _ => if n ∈ st then Except.ok () else Except.error 404
  createResult := fun _ obj =>
    if obj.metadata.name ∈ st then Except.error 409 else Except.ok ()
  patchResult := fun n _ _ => if n ∈ st then Except.ok () else Except.error 404

/-- The port of the end-to-end `web` scenario:
`{name: "http", port: 80, targetPort: 8080}`. -/
def webPort : Port := Port.mk (some "http") 80 (some 8080)

/-- Spec of the `web` Service of the end-to-end scenario. -/
def webSvc : ServiceSpec := ServiceSpec.mk [webPort]

/-- The ingress object `create_ingress_object "ns1" "web" "/app" webPort`
returns, before the uid fill-in (owner uid still `""`). -/
def webBuiltRaw : V1Ingress :=
  V1Ingress.mk
    (V1ObjectMeta.mk "auto-ingress-web-http" "ns1"
      [(INGRESS_CLASS_KEY, INGRESS_CLASS_VALUE)]
      [V1OwnerReference.mk "v1" "Service" "web" "" true true])
    (V1IngressSpec.mk
      [V1IngressRule.mk (V1HTTPIngressRuleValue.mk
        [V1HTTPIngressPath.mk "/app" "Prefix"
          (V1IngressBackend.mk
            (V1IngressServiceBackend.mk "web" (V1ServiceBackendPort.mk 8080)))])])

/-- Gateway whose list call fails with HTTP 503. -/
def gwListFail : Gateway where
  listResult := fun _ => Except.error 503
  deleteResult := fun _ _ => Except.ok ()
  createResult := fun _ _ => Except.ok ()
  patchResult := fun _ _ _ => Except.ok ()

/-- Gateway where create conflicts (409) and the fallback patch fails
with HTTP 500. -/
def gwPatchFail : Gateway where
  listResult := fun _ => Except.ok []
  deleteResult := fun _ _ => Except.ok ()
  createResult := fun _ _ => Except.error 409
  patchResult := fun _ _ _ => Except.error 500

/-- Gateway modelling a race: the list still reports
`auto-ingress-web-http`, but it is already gone, so deleting it answers
404 (not found). -/
def gwDeleteNotFound : Gateway where
  listResult := fun _ => Except.ok ["auto-ingress-web-http"]
  deleteResult := fun _ _ => Except.error 404
  createResult := fun _ _ => Except.ok ()
  patchResult := fun _ _ _ => Except.ok ()

/-- C1: generated names do start with `auto-ingress-<serviceName>`, but
prefix-based family membership has a false positive across distinct
Services: the name generated for `svc2` also starts with the family
string `auto-ingress-svc` used to filter the family of `svc`, so the
cleanup pass for `svc` deletes the ingress belonging to `svc2`. -/
theorem build_ingress_name_family_false_positive :
    startswith (build_ingress_name "svc" "http") ("auto-ingress-" ++ "svc") = true ∧
    startswith (build_ingress_name "svc2" "http") ("auto-ingress-" ++ "svc") = true ∧
    cleanup_ingress (gatewayOfState [build_ingress_name "svc2" "http"]) "svc" "ns1" =
      (HandlerResult.ok,
       [GatewayCall.list "ns1", GatewayCall.delete "auto-ingress-svc2-http" "ns1"],
       [KopfEvent.mk "IngressDeleted" "Deleted ingress auto-ingress-svc2-http"]) := by
  refine ⟨by decide, by decide, by decide⟩

/-- C2: for Service `web` in `ns1` with annotation `auto-ingress: "/app"`
and ports `[{name: "http", port: 80, targetPort: 8080}]`, the reconciler
issues a create call for an Ingress named `auto-ingress-web-http` with
exactly one rule, one path `/app` of type `Prefix`, backend service
`web` on port number `8080` (the targetPort). -/
theorem reconcile_web_ns1_end_to_end_create :
    manage_ingress (gatewayOfState []) (ServiceSpec.mk [Port.mk (some "http") 80 (some 8080)])
      "web" "ns1" "uid-1" (some [("auto-ingress", "/app")]) =
    (HandlerResult.ok,
     [GatewayCall.create "ns1"
       (V1Ingress.mk
         (V1ObjectMeta.mk "auto-ingress-web-http" "ns1"
           [(INGRESS_CLASS_KEY, INGRESS_CLASS_VALUE)]
           [V1OwnerReference.mk "v1" "Service" "web" "uid-1" true true])
         (V1IngressSpec.mk
           [V1IngressRule.mk (V1HTTPIngressRuleValue.mk
             [V1HTTPIngressPath.mk "/app" "Prefix"
               (V1IngressBackend.mk
                 (V1IngressServiceBackend.mk "web" (V1ServiceBackendPort.mk 8080)))])]))],
     [KopfEvent.mk "IngressCreated" "Created ingress auto-ingress-web-http"]) := by
  decide

/-- C8: with the annotation present but an empty port list, the
reconciler raises the recoverable `TemporaryError "No ports found on
service"` with delay 10, and its call trace is empty: no gateway call at
all (in particular no mutation) is attempted, whatever the cluster
would answer. -/
theorem empty_ports_precondition_failure (gw : Gateway) (name ns uid path : String)
    (annotations : Option (List (String × String)))
    (h : (annotations.getD []).lookup AUTO_INGRESS_KEY = some path) :
    manage_ingress gw (ServiceSpec.mk []) name ns uid annotations =
      (HandlerResult.temporaryError "No ports found on service" 10, [], []) := by
  simp [manage_ingress, h, find_http_port, findHttpLoop]

/-- Witness for C8 at a concrete input. -/
theorem empty_ports_precondition_failure_witness :
    manage_ingress (gatewayOfState []) (ServiceSpec.mk []) "web" "ns1" "u1"
      (some [("auto-ingress", "/app")]) =
      (HandlerResult.temporaryError "No ports found on service" 10, [], []) :=
  empty_ports_precondition_failure (gatewayOfState []) "web" "ns1" "u1" "/app"
    (some [("auto-ingress", "/app")]) rfl

/-- Helper for C10: if position `i` of the port list has no `name` key
and no earlier position is named `"http"`, the scanning loop raises
`KeyError` (either at `i` or at an earlier name-less entry). -/
theorem findHttpLoop_error_of_missing_name (ports : List Port) :
    ∀ (i : Nat) (h1 : i < ports.length),
      (ports.get ⟨i, h1⟩).name = none →
      (∀ j (hj : j < i), (ports.get ⟨j, Nat.lt_trans hj h1⟩).name ≠ some "http") →
      findHttpLoop ports = Except.error "KeyError: name" := by
  induction ports with
  | nil => intro i h1 _ _; simp at h1
  | cons p rest ih =>
    intro i h1 h2 h3
    cases i with
    | zero =>
      simp only [List.get] at h2
      simp [findHttpLoop, h2]
    | succ i =>
      cases hpn : p.name with
      | none => simp [findHttpLoop, hpn]
      | some n =>
        have hp : p.name ≠ some "http" := by
          have := h3 0 (Nat.succ_pos i)
          simpa [List.get] using this
        have hn : ¬ n = "http" := by
          intro hh; exact hp (hh ▸ hpn)
        have hrec := ih i (Nat.lt_of_succ_lt_succ h1)
          (by simpa [List.get] using h2)
          (fun j hj => by
            have := h3 (j + 1) (Nat.succ_lt_succ hj)
            simpa [List.get] using this)
        simp only [findHttpLoop, hpn]
        rw [if_neg hn]
        exact hrec

/-- C10: the port selector is total only when every scanned port dict
carries a `name` key — if some position `i` lacks it and no earlier
position is named `"http"`, `find_http_port` fails with `KeyError`
instead of returning a port or none. -/
theorem find_http_port_keyerror_on_missing_name (ports : List Port) (i : Nat)
    (h1 : i < ports.length) (h2 : (ports.get ⟨i, h1⟩).name = none)
    (h3 : ∀ j (hj : j < i), (ports.get ⟨j, Nat.lt_trans hj h1⟩).name ≠ some "http") :
    find_http_port (V1Service.mk (ServiceSpec.mk ports)) =
      Except.error "KeyError: name" := by
  have hl := findHttpLoop_error_of_missing_name ports i h1 h2 h3
  simp [find_http_port, hl]

/-- Witness for C10: a first port without a `name` key makes the
selector fail even though a usable `http` port follows. -/
theorem find_http_port_keyerror_on_missing_name_witness :
    find_http_port (V1Service.mk (ServiceSpec.mk
        [Port.mk none 9090 none, Port.mk (some "http") 80 none])) =
      Except.error "KeyError: name" :=
  find_http_port_keyerror_on_missing_name
    [Port.mk none 9090 none, Port.mk (some "http") 80 none] 0 (by decide) rfl
    (fun j hj => absurd hj (Nat.not_lt_zero j))

/-- Helper for C4: when every port carries a `name` key, the scanning
loop returns the first port named `"http"` (as `List.find?` does), or
none when there is no such port. -/
theorem findHttpLoop_all_named (ports : List Port)
    (h : ∀ p ∈ ports, p.name.isSome) :
    findHttpLoop ports =
      Except.ok (ports.find? (fun p => p.name == some "http")) := by
  induction ports with
  | nil => simp [findHttpLoop]
  | cons p rest ih =>
    obtain ⟨n, hn⟩ := Option.isSome_iff_exists.mp (h p (by simp))
    by_cases hh : n = "http"
    · subst hh
      simp [findHttpLoop, hn, List.find?_cons]
    · have hrec := ih (fun q hq => h q (by simp [hq]))
      simp [findHttpLoop, hn, hh, List.find?_cons, hrec]

/-- C4: on any port sequence in which every entry carries a `name` key,
the selector returns the first port named `"http"` when one exists,
otherwise the first port of the sequence, and none for the empty
sequence (`find? ... <|> head?` is exactly that policy). -/
theorem find_http_port_policy (ports : List Port)
    (h : ∀ p ∈ ports, p.name.isSome) :
    find_http_port (V1Service.mk (ServiceSpec.mk ports)) =
      Except.ok ((ports.find? (fun p => p.name == some "http")).orElse
        (fun _ => ports.head?)) := by
  have hl := findHttpLoop_all_named ports h
  cases hf : ports.find? (fun p => p.name == some "http") with
  | none =>
    rw [hf] at hl
    simp [find_http_port, hl, Option.orElse]
  | some q =>
    rw [hf] at hl
    simp [find_http_port, hl, Option.orElse]

/-- Witness for C4 at the three concrete inputs of the spec: an `http`
port is preferred, otherwise the first port, and the empty list gives
none. -/
theorem find_http_port_policy_witness :
    find_http_port (V1Service.mk (ServiceSpec.mk
        [Port.mk (some "metrics") 9090 none, Port.mk (some "http") 8080 none])) =
      Except.ok (some (Port.mk (some "http") 8080 none)) ∧
    find_http_port (V1Service.mk (ServiceSpec.mk [Port.mk (some "metrics") 9090 none])) =
      Except.ok (some (Port.mk (some "metrics") 9090 none)) ∧
    find_http_port (V1Service.mk (ServiceSpec.mk [])) = Except.ok none :=
  ⟨find_http_port_policy
      [Port.mk (some "metrics") 9090 none, Port.mk (some "http") 8080 none]
      (by decide),
   find_http_port_policy [Port.mk (some "metrics") 9090 none] (by decide),
   find_http_port_policy [] (by decide)⟩

/-- Helper for C3: the annotation-removal delete loop, when every
family member's delete succeeds, deletes exactly the listed names that
start with the family string, in order, emitting one event each. -/
theorem manageDeleteLoop_all_ok (gw : Gateway) (fam ns : String)
    (items : List String)
    (h : ∀ n ∈ items, startswith n fam = true → gw.deleteResult n ns = Except.ok ()) :
    manageDeleteLoop gw fam ns items =
      ((items.filter (fun n => startswith n fam)).map (fun n => GatewayCall.delete n ns),
       (items.filter (fun n => startswith n fam)).map
         (fun n => KopfEvent.mk "IngressDeleted" ("Deleted " ++ n)),
       none) := by
  induction items with
  | nil => simp [manageDeleteLoop]
  | cons a rest ih =>
    have hrec := ih (fun n hn hs => h n (by simp [hn]) hs)
    by_cases ha : startswith a fam = true
    · have hd := h a (by simp) ha
      simp [manageDeleteLoop, ha, hd, hrec, List.filter_cons]
    · simp [manageDeleteLoop, ha, hrec, List.filter_cons]

/-- Helper for C3: same for the Service-deletion cleanup loop. -/
theorem cleanupDeleteLoop_all_ok (gw : Gateway) (fam ns : String)
    (items : List String)
    (h : ∀ n ∈ items, startswith n fam = true → gw.deleteResult n ns = Except.ok ()) :
    cleanupDeleteLoop gw fam ns items =
      ((items.filter (fun n => startswith n fam)).map (fun n => GatewayCall.delete n ns),
       (items.filter (fun n => startswith n fam)).map
         (fun n => KopfEvent.mk "IngressDeleted" ("Deleted ingress " ++ n)),
       none) := by
  induction items with
  | nil => simp [cleanupDeleteLoop]
  | cons a rest ih =>
    have hrec := ih (fun n hn hs => h n (by simp [hn]) hs)
    by_cases ha : startswith a fam = true
    · have hd := h a (by simp) ha
      simp [cleanupDeleteLoop, ha, hd, hrec, List.filter_cons]
    · simp [cleanupDeleteLoop, ha, hrec, List.filter_cons]

/-- C3: on an event without the auto-ingress annotation, and on a
Service delete event, the handler lists the ingresses of the namespace
and deletes exactly the listed names starting with
`auto-ingress-<serviceName>` (no other name is touched); an empty
family yields no deletion at all.  The result is a function of the
listed cluster state `st` only. -/
theorem annotation_absent_and_delete_remove_exactly_family
    (st : List String) (spec : ServiceSpec) (name ns uid : String)
    (annotations : Option (List (String × String)))
    (h : (annotations.getD []).lookup AUTO_INGRESS_KEY = none) :
    manage_ingress (gatewayOfState st) spec name ns uid annotations =
      (HandlerResult.ok,
       GatewayCall.list ns ::
         (st.filter (fun n => startswith n ("auto-ingress-" ++ name))).map
           (fun n => GatewayCall.delete n ns),
       (st.filter (fun n => startswith n ("auto-ingress-" ++ name))).map
         (fun n => KopfEvent.mk "IngressDeleted" ("Deleted " ++ n))) ∧
    cleanup_ingress (gatewayOfState st) name ns =
      (HandlerResult.ok,
       GatewayCall.list ns ::
         (st.filter (fun n => startswith n ("auto-ingress-" ++ name))).map
           (fun n => GatewayCall.delete n ns),
       (st.filter (fun n => startswith n ("auto-ingress-" ++ name))).map
         (fun n => KopfEvent.mk "IngressDeleted" ("Deleted ingress " ++ n))) ∧
    (st.filter (fun n => startswith n ("auto-ingress-" ++ name)) = [] →
      manage_ingress (gatewayOfState st) spec name ns uid annotations =
        (HandlerResult.ok, [GatewayCall.list ns], [])) := by
  have hdel : ∀ n ∈ st, startswith n ("auto-ingress-" ++ name) = true →
      (gatewayOfState st).deleteResult n ns = Except.ok () := by
    intro n hn _
    simp [gatewayOfState, hn]
  have hm := manageDeleteLoop_all_ok (gatewayOfState st) ("auto-ingress-" ++ name) ns st hdel
  have hc := cleanupDeleteLoop_all_ok (gatewayOfState st) ("auto-ingress-" ++ name) ns st hdel
  have hlist : (gatewayOfState st).listResult ns = Except.ok st := rfl
  have hmain :
      manage_ingress (gatewayOfState st) spec name ns uid annotations =
        (HandlerResult.ok,
         GatewayCall.list ns ::
           (st.filter (fun n => startswith n ("auto-ingress-" ++ name))).map
             (fun n => GatewayCall.delete n ns),
         (st.filter (fun n => startswith n ("auto-ingress-" ++ name))).map
           (fun n => KopfEvent.mk "IngressDeleted" ("Deleted " ++ n))) := by
    simp only [manage_ingress, h, hlist, hm]
  refine ⟨hmain, ?_, ?_⟩
  · simp only [cleanup_ingress, hlist, hc]
  · intro hfam
    rw [hmain, hfam]
    simp

/-- Witness for C3 at concrete inputs: the family member is deleted,
`unrelated` is untouched, in both handlers; an empty family gives a
bare list with no deletion. -/
theorem family_cleanup_witness :
    manage_ingress (gatewayOfState ["auto-ingress-web-http", "unrelated"])
        (ServiceSpec.mk []) "web" "ns1" "u1" none =
      (HandlerResult.ok,
       [GatewayCall.list "ns1", GatewayCall.delete "auto-ingress-web-http" "ns1"],
       [KopfEvent.mk "IngressDeleted" "Deleted auto-ingress-web-http"]) ∧
    cleanup_ingress (gatewayOfState ["auto-ingress-web-http", "unrelated"]) "web" "ns1" =
      (HandlerResult.ok,
       [GatewayCall.list "ns1", GatewayCall.delete "auto-ingress-web-http" "ns1"],
       [KopfEvent.mk "IngressDeleted" "Deleted ingress auto-ingress-web-http"]) ∧
    manage_ingress (gatewayOfState ["unrelated"]) (ServiceSpec.mk []) "web" "ns1" "u1" none =
      (HandlerResult.ok, [GatewayCall.list "ns1"], []) :=
  ⟨(annotation_absent_and_delete_remove_exactly_family
      ["auto-ingress-web-http", "unrelated"] (ServiceSpec.mk []) "web" "ns1" "u1" none rfl).1,
   (annotation_absent_and_delete_remove_exactly_family
      ["auto-ingress-web-http", "unrelated"] (ServiceSpec.mk []) "web" "ns1" "u1" none rfl).2.1,
   (annotation_absent_and_delete_remove_exactly_family
      ["unrelated"] (ServiceSpec.mk []) "web" "ns1" "u1" none rfl).2.2 (by decide)⟩

/-- C5: when the desired name already exists in the cluster (for
example because a prior reconcile of the same state created it), the
create answers 409 and the reconciler surfaces no error: it patches the
object of the same name with the full desired spec and emits the
`IngressPatched` outcome. -/
theorem conflict_then_patch_converges
    (st : List String) (spec : ServiceSpec) (name ns uid path : String)
    (port : Port) (obj0 : V1Ingress)
    (annotations : Option (List (String × String)))
    (h1 : (annotations.getD []).lookup AUTO_INGRESS_KEY = some path)
    (hp : find_http_port (V1Service.mk spec) = Except.ok (some port))
    (hobj : create_ingress_object ns name path port = Except.ok obj0)
    (hmem : (set_owner_uid obj0 uid).metadata.name ∈ st) :
    manage_ingress (gatewayOfState st) spec name ns uid annotations =
      (HandlerResult.ok,
       [GatewayCall.create ns (set_owner_uid obj0 uid),
        GatewayCall.patch (set_owner_uid obj0 uid).metadata.name ns (set_owner_uid obj0 uid)],
       [KopfEvent.mk "IngressPatched"
         ("Updated ingress " ++ (set_owner_uid obj0 uid).metadata.name)]) := by
  have hcr : (gatewayOfState st).createResult ns (set_owner_uid obj0 uid) =
      Except.error 409 := by
    simp [gatewayOfState, hmem]
  have hpa : (gatewayOfState st).patchResult (set_owner_uid obj0 uid).metadata.name ns
      (set_owner_uid obj0 uid) = Except.ok () := by
    simp [gatewayOfState, hmem]
  simp only [manage_ingress, h1, hp, hobj, hcr, hpa]
  simp

/-- Witness for C5: the second reconcile of the `web` scenario, with
`auto-ingress-web-http` already present, converges via create-409 then
patch. -/
theorem conflict_then_patch_converges_witness :
    manage_ingress (gatewayOfState ["auto-ingress-web-http"]) webSvc "web" "ns1" "u1"
        (some [("auto-ingress", "/app")]) =
      (HandlerResult.ok,
       [GatewayCall.create "ns1" (set_owner_uid webBuiltRaw "u1"),
        GatewayCall.patch (set_owner_uid webBuiltRaw "u1").metadata.name "ns1"
          (set_owner_uid webBuiltRaw "u1")],
       [KopfEvent.mk "IngressPatched"
         ("Updated ingress " ++ (set_owner_uid webBuiltRaw "u1").metadata.name)]) :=
  conflict_then_patch_converges ["auto-ingress-web-http"] webSvc "web" "ns1" "u1" "/app"
    webPort webBuiltRaw (some [("auto-ingress", "/app")]) rfl rfl rfl (by decide)

/-- Helper: when the scanning loop returns a port, that port is named
`"http"`. -/
theorem findHttpLoop_ok_some_name (items : List Port) (p : Port)
    (h : findHttpLoop items = Except.ok (some p)) : p.name = some "http" := by
  induction items with
  | nil => simp [findHttpLoop] at h
  | cons a rest ih =>
    cases han : a.name with
    | none => simp [findHttpLoop, han] at h
    | some n =>
      by_cases hn : n = "http"
      · subst hn
        simp [findHttpLoop, han] at h
        exact h ▸ han
      · simp only [findHttpLoop, han] at h
        rw [if_neg hn] at h
        exact ih h

/-- Helper: when the scanning loop completes without finding an
`http` port, it has read (hence found present) every port's name. -/
theorem findHttpLoop_ok_none_named (items : List Port)
    (h : findHttpLoop items = Except.ok none) : ∀ p ∈ items, p.name.isSome := by
  induction items with
  | nil => intro p hp; simp at hp
  | cons a rest ih =>
    intro p hp
    cases han : a.name with
    | none => simp [findHttpLoop, han] at h
    | some n =>
      by_cases hn : n = "http"
      · subst hn
        simp [findHttpLoop, han] at h
      · simp only [findHttpLoop, han] at h
        rw [if_neg hn] at h
        rcases List.mem_cons.mp hp with rfl | hp2
        · simp [han]
        · exact ih h p hp2

/-- Helper: a port returned by `find_http_port` always carries a
`name` key (the loop has read it). -/
theorem find_http_port_port_named (s : V1Service) (p : Port)
    (h : find_http_port s = Except.ok (some p)) : p.name.isSome := by
  unfold find_http_port at h
  cases hl : findHttpLoop s.spec.ports with
  | error e => rw [hl] at h; simp at h
  | ok o =>
    rw [hl] at h
    cases o with
    | some q =>
      have hq : q = p := by simpa using h
      rw [← hq]
      simp [findHttpLoop_ok_some_name _ _ hl]
    | none =>
      have hh : s.spec.ports.head? = some p := by simpa using h
      have hmem : p ∈ s.spec.ports := by
        cases hs : s.spec.ports with
        | nil => rw [hs] at hh; simp at hh
        | cons a t =>
          rw [hs] at hh
          simp only [List.head?_cons, Option.some.injEq] at hh
          subst hh
          exact List.mem_cons_self a t
      exact findHttpLoop_ok_none_named _ hl p hmem

/-- C9: with the annotation present and a usable port, every ingress
object the reconciler submits to the cluster — by the create call and,
on conflict, the fallback patch call — carries exactly one owner
reference: apiVersion `v1`, kind `Service`, name the Service's name,
controller and blockOwnerDeletion true, and, after the post-build
fill-in, uid the event's uid. -/
theorem submitted_ingress_owner_reference (gw : Gateway) (spec : ServiceSpec)
    (name ns uid path : String) (port : Port)
    (annotations : Option (List (String × String)))
    (h1 : (annotations.getD []).lookup AUTO_INGRESS_KEY = some path)
    (hp : find_http_port (V1Service.mk spec) = Except.ok (some port)) :
    ∀ c ∈ (manage_ingress gw spec name ns uid annotations).2.1, ∀ obj,
      gatewayCallObj c = some obj →
      obj.metadata.owner_references =
        [V1OwnerReference.mk "v1" "Service" name uid true true] := by
  obtain ⟨n, hn⟩ := Option.isSome_iff_exists.mp (find_http_port_port_named _ _ hp)
  cases hobj : create_ingress_object ns name path port with
  | error e => simp [create_ingress_object, hn] at hobj
  | ok obj0 =>
    have h0 : obj0.metadata.owner_references =
        [V1OwnerReference.mk "v1" "Service" name "" true true] := by
      have hh := hobj
      simp only [create_ingress_object, hn, Except.ok.injEq] at hh
      rw [← hh]
    have hor : (set_owner_uid obj0 uid).metadata.owner_references =
        [V1OwnerReference.mk "v1" "Service" name uid true true] := by
      simp [set_owner_uid, h0]
    simp only [manage_ingress, h1, hp, hobj]
    cases hc : gw.createResult ns (set_owner_uid obj0 uid) with
    | ok u =>
      simp only [hc]
      intro c hcm obj hobj2
      simp only [List.mem_singleton] at hcm
      subst hcm
      simp only [gatewayCallObj, Option.some.injEq] at hobj2
      rw [← hobj2]
      exact hor
    | error s =>
      simp only [hc]
      by_cases h409 : s = 409
      · subst h409
        rw [if_pos rfl]
        cases hpt : gw.patchResult (set_owner_uid obj0 uid).metadata.name ns
            (set_owner_uid obj0 uid) with
        | ok u =>
          simp only [hpt]
          intro c hcm obj hobj2
          rcases List.mem_cons.mp hcm with rfl | hcm2
          · simp only [gatewayCallObj, Option.some.injEq] at hobj2
            rw [← hobj2]
            exact hor
          · rcases List.mem_singleton.mp hcm2 with rfl
            simp only [gatewayCallObj, Option.some.injEq] at hobj2
            rw [← hobj2]
            exact hor
        | error s2 =>
          simp only [hpt]
          intro c hcm obj hobj2
          rcases List.mem_cons.mp hcm with rfl | hcm2
          · simp only [gatewayCallObj, Option.some.injEq] at hobj2
            rw [← hobj2]
            exact hor
          · rcases List.mem_singleton.mp hcm2 with rfl
            simp only [gatewayCallObj, Option.some.injEq] at hobj2
            rw [← hobj2]
            exact hor
      · rw [if_neg h409]
        intro c hcm obj hobj2
        simp only [List.mem_singleton] at hcm
        subst hcm
        simp only [gatewayCallObj, Option.some.injEq] at hobj2
        rw [← hobj2]
        exact hor

/-- Witness for C9: in the `web` scenario the submitted object's owner
references are exactly the filled-in Service reference. -/
theorem submitted_ingress_owner_reference_witness :
    (set_owner_uid webBuiltRaw "u1").metadata.owner_references =
      [V1OwnerReference.mk "v1" "Service" "web" "u1" true true] :=
  submitted_ingress_owner_reference (gatewayOfState []) webSvc "web" "ns1" "u1" "/app"
    webPort (some [("auto-ingress", "/app")]) rfl rfl
    (GatewayCall.create "ns1" (set_owner_uid webBuiltRaw "u1")) (by decide)
    (set_owner_uid webBuiltRaw "u1") rfl

/-- C6 counterexample: a failure of the fallback patch (HTTP 500 after
the create answered 409) escapes `manage_ingress` as an unhandled
`ApiException`, and a list failure (HTTP 503) escapes
`cleanup_ingress` unhandled — neither is the claimed recoverable
retry signal. -/
theorem patch_failure_escapes_unhandled_counterexample :
    (manage_ingress gwPatchFail webSvc "web" "ns1" "u1"
        (some [("auto-ingress", "/app")])).1 =
      HandlerResult.unhandledApiException 500 ∧
    (cleanup_ingress gwListFail "web" "ns1").1 =
      HandlerResult.unhandledApiException 503 := by
  refine ⟨by decide, by decide⟩

/-- C6 (amended): in `manage_ingress`, a list failure or a family
delete failure of the annotation-removal branch and a non-409 create
failure are signalled as a recoverable `TemporaryError` with delay 10;
but a failure of the fallback patch after a 409 escapes the reconciler
as an unhandled `ApiException`, and so does any list or delete failure
in the Service-deletion cleanup handler. -/
theorem error_signalling_amended (gw : Gateway) (spec : ServiceSpec)
    (name ns uid path n : String) (port : Port) (obj0 : V1Ingress) (s : Nat)
    (annotations : Option (List (String × String))) :
    ((annotations.getD []).lookup AUTO_INGRESS_KEY = none →
      gw.listResult ns = Except.error s →
      manage_ingress gw spec name ns uid annotations =
        (HandlerResult.temporaryError
          ("Failed to list/delete ingress: API error " ++ toString s) 10,
         [GatewayCall.list ns], [])) ∧
    ((annotations.getD []).lookup AUTO_INGRESS_KEY = none →
      gw.listResult ns = Except.ok [n] →
      startswith n ("auto-ingress-" ++ name) = true →
      gw.deleteResult n ns = Except.error s →
      manage_ingress gw spec name ns uid annotations =
        (HandlerResult.temporaryError
          ("Failed to list/delete ingress: API error " ++ toString s) 10,
         [GatewayCall.list ns, GatewayCall.delete n ns], [])) ∧
    ((annotations.getD []).lookup AUTO_INGRESS_KEY = some path →
      find_http_port (V1Service.mk spec) = Except.ok (some port) →
      create_ingress_object ns name path port = Except.ok obj0 →
      gw.createResult ns (set_owner_uid obj0 uid) = Except.error s → s ≠ 409 →
      manage_ingress gw spec name ns uid annotations =
        (HandlerResult.temporaryError
          ("Failed to create/patch ingress: API error " ++ toString s) 10,
         [GatewayCall.create ns (set_owner_uid obj0 uid)], [])) ∧
    ((annotations.getD []).lookup AUTO_INGRESS_KEY = some path →
      find_http_port (V1Service.mk spec) = Except.ok (some port) →
      create_ingress_object ns name path port = Except.ok obj0 →
      gw.createResult ns (set_owner_uid obj0 uid) = Except.error 409 →
      gw.patchResult (set_owner_uid obj0 uid).metadata.name ns (set_owner_uid obj0 uid) =
        Except.error s →
      manage_ingress gw spec name ns uid annotations =
        (HandlerResult.unhandledApiException s,
         [GatewayCall.create ns (set_owner_uid obj0 uid),
          GatewayCall.patch (set_owner_uid obj0 uid).metadata.name ns
            (set_owner_uid obj0 uid)],
         [])) ∧
    (gw.listResult ns = Except.error s →
      cleanup_ingress gw name ns =
        (HandlerResult.unhandledApiException s, [GatewayCall.list ns], [])) ∧
    (gw.listResult ns = Except.ok [n] →
      startswith n ("auto-ingress-" ++ name) = true →
      gw.deleteResult n ns = Except.error s →
      cleanup_ingress gw name ns =
        (HandlerResult.unhandledApiException s,
         [GatewayCall.list ns, GatewayCall.delete n ns], [])) := by
  refine ⟨?_, ?_, ?_, ?_, ?_, ?_⟩
  · intro h hl
    simp [manage_ingress, h, hl]
  · intro h hl hsw hd
    simp [manage_ingress, h, hl, manageDeleteLoop, hsw, hd]
  · intro h1 hp hobj hcr hne
    simp only [manage_ingress, h1, hp, hobj, hcr]
    rw [if_neg hne]
  · intro h1 hp hobj hcr hpt
    simp only [manage_ingress, h1, hp, hobj, hcr, hpt]
    simp
  · intro hl
    simp [cleanup_ingress, hl]
  · intro hl hsw hd
    simp [cleanup_ingress, hl, cleanupDeleteLoop, hsw, hd]

/-- Witness for C6 (amended) at concrete gateways: a list failure is a
`TemporaryError`, a fallback-patch failure and a cleanup list failure
escape unhandled. -/
theorem error_signalling_amended_witness :
    manage_ingress gwListFail (ServiceSpec.mk []) "web" "ns1" "u1" none =
      (HandlerResult.temporaryError
        ("Failed to list/delete ingress: API error " ++ toString (503 : Nat)) 10,
       [GatewayCall.list "ns1"], []) ∧
    manage_ingress gwPatchFail webSvc "web" "ns1" "u1" (some [("auto-ingress", "/app")]) =
      (HandlerResult.unhandledApiException 500,
       [GatewayCall.create "ns1" (set_owner_uid webBuiltRaw "u1"),
        GatewayCall.patch (set_owner_uid webBuiltRaw "u1").metadata.name "ns1"
          (set_owner_uid webBuiltRaw "u1")],
       []) ∧
    cleanup_ingress gwListFail "web" "ns1" =
      (HandlerResult.unhandledApiException 503, [GatewayCall.list "ns1"], []) :=
  ⟨(error_signalling_amended gwListFail (ServiceSpec.mk []) "web" "ns1" "u1" "" ""
      webPort webBuiltRaw 503 none).1 rfl rfl,
   (error_signalling_amended gwPatchFail webSvc "web" "ns1" "u1" "/app" ""
      webPort webBuiltRaw 500 (some [("auto-ingress", "/app")])).2.2.2.1 rfl rfl rfl rfl rfl,
   (error_signalling_amended gwListFail (ServiceSpec.mk []) "web" "ns1" "u1" "" ""
      webPort webBuiltRaw 503 none).2.2.2.2.1 rfl⟩

/-- C7 counterexample: when a listed family member is already gone and
its delete answers 404 (not found), the annotation-removal pass does
not treat it as success — it raises a `TemporaryError` — and the
Service-deletion cleanup pass lets the 404 `ApiException` escape
unhandled. -/
theorem not_found_on_delete_surfaced_counterexample :
    (manage_ingress gwDeleteNotFound (ServiceSpec.mk []) "web" "ns1" "u1" none).1 =
      HandlerResult.temporaryError
        ("Failed to list/delete ingress: API error " ++ toString (404 : Nat)) 10 ∧
    (cleanup_ingress gwDeleteNotFound "web" "ns1").1 =
      HandlerResult.unhandledApiException 404 := by
  refine ⟨by decide, by decide⟩

/-- C7 (amended): a not-found (404) `ApiException` on deleting a
managed ingress is not treated as success: the annotation-removal pass
catches it and re-raises a recoverable `TemporaryError` with delay 10,
and the Service-deletion cleanup pass lets it escape unhandled. -/
theorem not_found_on_delete_amended (gw : Gateway) (spec : ServiceSpec)
    (name ns uid n : String) (annotations : Option (List (String × String)))
    (h : (annotations.getD []).lookup AUTO_INGRESS_KEY = none)
    (hl : gw.listResult ns = Except.ok [n])
    (hsw : startswith n ("auto-ingress-" ++ name) = true)
    (hd : gw.deleteResult n ns = Except.error 404) :
    manage_ingress gw spec name ns uid annotations =
      (HandlerResult.temporaryError
        ("Failed to list/delete ingress: API error " ++ toString (404 : Nat)) 10,
       [GatewayCall.list ns, GatewayCall.delete n ns], []) ∧
    cleanup_ingress gw name ns =
      (HandlerResult.unhandledApiException 404,
       [GatewayCall.list ns, GatewayCall.delete n ns], []) := by
  constructor
  · simp [manage_ingress, h, hl, manageDeleteLoop, hsw, hd]
  · simp [cleanup_ingress, hl, cleanupDeleteLoop, hsw, hd]

/-- Witness for C7 (amended) at the concrete racing gateway. -/
theorem not_found_on_delete_amended_witness :
    manage_ingress gwDeleteNotFound (ServiceSpec.mk []) "web" "ns1" "u1" none =
      (HandlerResult.temporaryError
        ("Failed to list/delete ingress: API error " ++ toString (404 : Nat)) 10,
       [GatewayCall.list "ns1", GatewayCall.delete "auto-ingress-web-http" "ns1"], []) ∧
    cleanup_ingress gwDeleteNotFound "web" "ns1" =
      (HandlerResult.unhandledApiException 404,
       [GatewayCall.list "ns1", GatewayCall.delete "auto-ingress-web-http" "ns1"], []) :=
  not_found_on_delete_amended gwDeleteNotFound (ServiceSpec.mk []) "web" "ns1" "u1"
    "auto-ingress-web-http" none rfl rfl (by decide) rfl
